import Mathlib

/-!
# Verification of the Instagram Followers Analyzer core

Shallow embedding of the core of `app.py` (identity model, the four export
parsers, and the set-analysis engine) together with proofs of the documented
properties.

Modelling conventions:
* A decoded JSON value is a `Json` tree; objects carry the (deduplicated,
  insertion-ordered) key/value list that `json.loads` produces.
* An uploaded byte buffer is modelled by `Option Json`: `none` stands for a
  buffer that fails UTF-8 decoding or JSON parsing (both exceptions are caught
  by the parsers), `some j` for a buffer that decodes to the value `j`.
* Exceptions that the source does **not** catch (`AttributeError`,
  `TypeError`, `IndexError`, `KeyError`) are modelled by `Except PyErr`.
* A Python `set` of `InstagramUser` is modelled by the list of stored
  representatives in insertion order; `usAdd` is `set.add` (keeping the
  first-inserted representative), `usMem` is `in`, both driven by the
  case-insensitive `__eq__`/`__hash__` of the source.
* A Python `dict` keyed by strings is modelled by its insertion-ordered
  association list; `tsSet` is `d[k] = v` (overwrite in place or append).
-/

/-- A decoded JSON value, as produced by `json.loads`. -/
inductive Json where
  | null
  | bool (b : Bool)
  | num (n : Int)
  | str (s : String)
  | arr (elems : List Json)
  | obj (fields : List (String × Json))
deriving Repr, Inhabited

/-- The Python exceptions the parsers can let escape (decode errors are
caught in the source and are therefore not represented here). -/
inductive PyErr where
  | attributeError
  | typeError
  | indexError
  | keyError
deriving Repr, DecidableEq

/-- Python truthiness (`bool(x)`) of a decoded JSON value. -/
def Json.truthy : Json → Bool
  | .null => false
  | .bool b => b
  | .num n => n != 0
  | .str s => s != ""
  | .arr elems => !elems.isEmpty
  | .obj fields => !fields.isEmpty

/-- Whether a JSON value is a list (`isinstance(x, list)`). -/
def Json.isArr : Json → Bool
  | .arr _ => true
  | _ => false

/-- Python `s.lower()`: lower-case every character. -/
def pyLowerStr (s : String) : String :=
  ⟨s.data.map Char.toLower⟩

/-- Python `s.strip()`: remove leading and trailing whitespace. -/
def pyStripStr (s : String) : String :=
  ⟨((s.data.dropWhile Char.isWhitespace).reverse.dropWhile Char.isWhitespace).reverse⟩

/-- `x.get(key, default)`: succeeds on objects (Python dicts), raises
`AttributeError` on every other value. -/
def dictGet (j : Json) (k : String) (dflt : Json) : Except PyErr Json :=
  match j with
  | .obj fields => .ok ((fields.lookup k).getD dflt)
  | _ => .error .attributeError

/-- `x.strip()`: succeeds on strings, raises `AttributeError` otherwise. -/
def pyStrip (j : Json) : Except PyErr String :=
  match j with
  | .str s => .ok (pyStripStr s)
  | _ => .error .attributeError

/-- `for x in j`: lists yield their elements, strings their characters,
dicts their keys; every other value raises `TypeError`. -/
def pyIter (j : Json) : Except PyErr (List Json) :=
  match j with
  | .arr elems => .ok elems
  | .str s => .ok (s.data.map fun c => .str (String.mk [c]))
  | .obj fields => .ok (fields.map fun p => .str p.1)
  | _ => .error .typeError

/-- `j[i]` for a natural index: indexing into lists and strings (raising
`IndexError` out of range), `KeyError` on dicts (JSON objects have string
keys, never integer ones), `TypeError` elsewhere. -/
def pyIndex (j : Json) (i : Nat) : Except PyErr Json :=
  match j with
  | .arr elems =>
    match elems.get? i with
    | some x => .ok x
    | none => .error .indexError
  | .str s =>
    match s.data.get? i with
    | some c => .ok (.str (String.mk [c]))
    | none => .error .indexError
  | .obj _ => .error .keyError
  | _ => .error .typeError

/-- The domain entity of `app.py`: a user identified by a username string
(the parsers store the stripped original-case form here). -/
structure InstagramUser where
  username : String
deriving Repr, DecidableEq

/-- The canonical comparison key: `username.lower()`.  Both `__eq__` and
`__hash__` of the source are computed from this key alone. -/
def canonicalKey (u : InstagramUser) : String :=
  pyLowerStr u.username

/-- Python `==` on `InstagramUser`:
`self.username.lower() == other.username.lower()`. -/
def userEq (a b : InstagramUser) : Bool :=
  pyLowerStr a.username == pyLowerStr b.username

/-- The argument of the source's `__hash__` (`hash(self.username.lower())`):
Python's `hash` is a function, so equal keys give equal hash values. -/
def userHashKey (u : InstagramUser) : String :=
  pyLowerStr u.username

/-- A Python `set` of `InstagramUser`, as its stored representatives in
insertion order. -/
abbrev UserSet := List InstagramUser

/-- Python `u in s` for a set of `InstagramUser` (driven by `userEq`). -/
def usMem (u : InstagramUser) (s : UserSet) : Bool :=
  s.any fun v => userEq v u

/-- Python `s.add(u)`: a no-op when an equal member is already stored
(the first-inserted representative survives). -/
def usAdd (s : UserSet) (u : InstagramUser) : UserSet :=
  if usMem u s then s else s ++ [u]

/-- A list models a Python set precisely when no two stored members are
equal under the set's equality. -/
def isPySet (s : UserSet) : Prop :=
  s.Pairwise fun a b => userEq a b = false

/-- The timestamp dict: insertion-ordered association list from
`username.lower()` to the stored timestamp value. -/
abbrev Timestamps := List (String × Json)

/-- Python `d[k] = v`: overwrite the binding in place, or append a new one. -/
def tsSet (m : Timestamps) (k : String) (v : Json) : Timestamps :=
  match m with
  | [] => [(k, v)]
  | (k', v') :: rest => if k' == k then (k, v) :: rest else (k', v') :: tsSet rest k v

/-- A decoded upload buffer: `none` models a buffer whose UTF-8 decoding or
JSON parsing fails (the two exceptions the source catches). -/
abbrev Buffer := Option Json

/-- A Python `for` loop with an implicit early exit on an uncaught
exception: fold the loop body over the items, threading the state. -/
def exceptFold (f : σ → α → Except PyErr σ) : σ → List α → Except PyErr σ
  | st, [] => .ok st
  | st, x :: xs =>
    match f st x with
    | .error e => .error e
    | .ok st' => exceptFold f st' xs

/-! ## The four parsers of `app.py`, mirrored step by step -/

/-- Body of the inner loop of `parse_followers`:
`if value := item.get("value"): users.add(InstagramUser(value.strip()))`. -/
def followersItemStep (users : UserSet) (item : Json) : Except PyErr UserSet :=
  match dictGet item "value" .null with
  | .error e => .error e
  | .ok value =>
    if value.truthy then
      match pyStrip value with
      | .error e => .error e
      | .ok username => .ok (usAdd users ⟨username⟩)
    else .ok users

/-- Body of the entry loop of `parse_followers`:
`string_list = entry.get("string_list_data", [])` then the item loop. -/
def followersEntryStep (users : UserSet) (entry : Json) : Except PyErr UserSet :=
  match dictGet entry "string_list_data" (.arr []) with
  | .error e => .error e
  | .ok stringList =>
    match pyIter stringList with
    | .error e => .error e
    | .ok items => exceptFold followersItemStep users items

/-- Body of the per-file loop of `parse_followers`: decode failures are
caught (`continue`), a non-list top level is skipped (`continue`), and the
entries of a list top level are processed. -/
def followersBufferStep (users : UserSet) (content : Buffer) : Except PyErr UserSet :=
  match content with
  | none => .ok users
  | some (.arr entries) => exceptFold followersEntryStep users entries
  | some _ => .ok users

/-- `parse_followers(files)` of `app.py`. -/
def parse_followers (files : List Buffer) : Except PyErr UserSet :=
  exceptFold followersBufferStep [] files

/-- Body of the inner loop of `parse_followers_with_timestamps`: add the
stripped value, then `if ts := item.get("timestamp"):
timestamps[username.lower()] = ts`. -/
def followersTsItemStep (st : UserSet × Timestamps) (item : Json) :
    Except PyErr (UserSet × Timestamps) :=
  match dictGet item "value" .null with
  | .error e => .error e
  | .ok value =>
    if value.truthy then
      match pyStrip value with
      | .error e => .error e
      | .ok username =>
        match dictGet item "timestamp" .null with
        | .error e => .error e
        | .ok ts =>
          if ts.truthy then
            .ok (usAdd st.1 ⟨username⟩, tsSet st.2 (pyLowerStr username) ts)
          else
            .ok (usAdd st.1 ⟨username⟩, st.2)
    else .ok st

/-- Body of the entry loop of `parse_followers_with_timestamps`. -/
def followersTsEntryStep (st : UserSet × Timestamps) (entry : Json) :
    Except PyErr (UserSet × Timestamps) :=
  match dictGet entry "string_list_data" (.arr []) with
  | .error e => .error e
  | .ok stringList =>
    match pyIter stringList with
    | .error e => .error e
    | .ok items => exceptFold followersTsItemStep st items

/-- Body of the per-file loop of `parse_followers_with_timestamps`. -/
def followersTsBufferStep (st : UserSet × Timestamps) (content : Buffer) :
    Except PyErr (UserSet × Timestamps) :=
  match content with
  | none => .ok st
  | some (.arr entries) => exceptFold followersTsEntryStep st entries
  | some _ => .ok st

/-- `parse_followers_with_timestamps(files)` of `app.py`. -/
def parse_followers_with_timestamps (files : List Buffer) :
    Except PyErr (UserSet × Timestamps) :=
  exceptFold followersTsBufferStep ([], []) files

/-- Body of the entry loop of `parse_following`:
`if title := entry.get("title"): users.add(InstagramUser(title.strip()))`. -/
def followingEntryStep (users : UserSet) (entry : Json) : Except PyErr UserSet :=
  match dictGet entry "title" .null with
  | .error e => .error e
  | .ok title =>
    if title.truthy then
      match pyStrip title with
      | .error e => .error e
      | .ok username => .ok (usAdd users ⟨username⟩)
    else .ok users

/-- `parse_following(content)` of `app.py`: decode failures caught, then
`data.get("relationships_following", [])` (raising on a non-dict top level),
an isinstance-list check, then the entry loop. -/
def parse_following (content : Buffer) : Except PyErr UserSet :=
  match content with
  | none => .ok []
  | some data =>
    match dictGet data "relationships_following" (.arr []) with
    | .error e => .error e
    | .ok relationships =>
      match relationships with
      | .arr entries => exceptFold followingEntryStep [] entries
      | _ => .ok []

/-- Body of the entry loop of `parse_following_with_timestamps`: add the
stripped title, then
`if string_list and (ts := string_list[0].get("timestamp")):
timestamps[username.lower()] = ts`. -/
def followingTsEntryStep (st : UserSet × Timestamps) (entry : Json) :
    Except PyErr (UserSet × Timestamps) :=
  match dictGet entry "title" .null with
  | .error e => .error e
  | .ok title =>
    if title.truthy then
      match pyStrip title with
      | .error e => .error e
      | .ok username =>
        match dictGet entry "string_list_data" (.arr []) with
        | .error e => .error e
        | .ok stringList =>
          if stringList.truthy then
            match pyIndex stringList 0 with
            | .error e => .error e
            | .ok firstItem =>
              match dictGet firstItem "timestamp" .null with
              | .error e => .error e
              | .ok ts =>
                if ts.truthy then
                  .ok (usAdd st.1 ⟨username⟩, tsSet st.2 (pyLowerStr username) ts)
                else
                  .ok (usAdd st.1 ⟨username⟩, st.2)
          else .ok (usAdd st.1 ⟨username⟩, st.2)
    else .ok st

/-- `parse_following_with_timestamps(content)` of `app.py`. -/
def parse_following_with_timestamps (content : Buffer) :
    Except PyErr (UserSet × Timestamps) :=
  match content with
  | none => .ok ([], [])
  | some data =>
    match dictGet data "relationships_following" (.arr []) with
    | .error e => .error e
    | .ok relationships =>
      match relationships with
      | .arr entries => exceptFold followingTsEntryStep ([], []) entries
      | _ => .ok ([], [])

/-! ## The set-analysis engine -/

/-- The result dictionary of `analyze` (the `mutual` key is spelled
`mutuals` because `mutual` is reserved in Lean). -/
structure AnalysisResult where
  not_following_back : UserSet
  not_followed_by_me : UserSet
  mutuals : UserSet
  total_followers : Nat
  total_following : Nat
deriving Repr, DecidableEq

/-- `analyze(followers, following)` of `app.py`: Python set difference and
intersection keep the members of the left operand that fail/pass the
membership test against the right one. -/
def analyze (followers following : UserSet) : AnalysisResult :=
  { not_following_back := following.filter fun u => !usMem u followers
    not_followed_by_me := followers.filter fun u => !usMem u following
    mutuals := followers.filter fun u => usMem u following
    total_followers := followers.length
    total_following := following.length }

/-! ## Concrete fixtures (the worked examples of the documented properties) -/

/-- A followers-export entry in the exact Instagram shape, carrying one
`string_list_data` item with the given `value` and `timestamp`. -/
def followersEntry (v : String) (t : Int) : Json :=
  .obj [("title", .str ""), ("media_list_data", .arr []),
        ("string_list_data",
         .arr [.obj [("href", .str "https://www.instagram.com/x"),
                     ("value", .str v), ("timestamp", .num t)]])]

/-- The well-formed three-user followers buffer of the documented example. -/
def followersBuffer3 : Buffer :=
  some (.arr [followersEntry "user1" 123, followersEntry "user2" 124,
              followersEntry "user3" 125])

/-- The well-formed two-user following buffer of the documented example. -/
def followingBuffer2 : Buffer :=
  some (.obj [("relationships_following", .arr [
    .obj [("title", .str "user2"),
          ("string_list_data", .arr [.obj [("timestamp", .num 123)]])],
    .obj [("title", .str "user4"),
          ("string_list_data", .arr [.obj [("timestamp", .num 124)]])]])])

/-- The followers set of the end-to-end example. -/
def sampleFollowers : UserSet := [⟨"user1"⟩, ⟨"user2"⟩, ⟨"user3"⟩]

/-- The following set of the end-to-end example. -/
def sampleFollowing : UserSet := [⟨"user2"⟩, ⟨"user4"⟩]


/-- A buffer that the followers parsers skip silently at top level: one
that fails decoding, or decodes to a non-list value. -/
def followersSkippable (b : Buffer) : Prop :=
  b = none ∨ ∃ j, b = some j ∧ j.isArr = false

/-- The users that one `string_list_data` item contributes, in order
(analysis companion of `followersItemStep`). -/
def followersItemUsers (item : Json) : Except PyErr (List InstagramUser) :=
  match dictGet item "value" .null with
  | .error e => .error e
  | .ok value =>
    if value.truthy then
      match pyStrip value with
      | .error e => .error e
      | .ok username => .ok [⟨username⟩]
    else .ok []

/-- Fold collecting the contributions of a list of sub-structures. -/
def collectFold (f : α → Except PyErr (List InstagramUser)) :
    List InstagramUser → List α → Except PyErr (List InstagramUser)
  | acc, [] => .ok acc
  | acc, x :: xs =>
    match f x with
    | .error e => .error e
    | .ok us => collectFold f (acc ++ us) xs

/-- The users one followers entry contributes, in order. -/
def followersEntryUsers (entry : Json) : Except PyErr (List InstagramUser) :=
  match dictGet entry "string_list_data" (.arr []) with
  | .error e => .error e
  | .ok stringList =>
    match pyIter stringList with
    | .error e => .error e
    | .ok items => collectFold followersItemUsers [] items

/-- The users one followers buffer contributes, in order. -/
def followersBufferUsers (b : Buffer) : Except PyErr (List InstagramUser) :=
  match b with
  | none => .ok []
  | some (.arr entries) => collectFold followersEntryUsers [] entries
  | some _ => .ok []

/-- Every member of the set has a handle of the form `v.strip()` for some
raw string value `v` (the invariant the parsers actually maintain). -/
def handlesStripped (s : UserSet) : Prop :=
  ∀ u ∈ s, ∃ v : String, u.username = pyStripStr v

/-! ## Basic facts about the identity model and Python sets -/

theorem userEq_refl (a : InstagramUser) : userEq a a = true := by
  simp [userEq]

theorem canonicalKey_ne_of_userEq_false {a b : InstagramUser}
    (h : userEq a b = false) : canonicalKey a ≠ canonicalKey b := by
  simpa [userEq, canonicalKey] using h

theorem usMem_congr {u v : InstagramUser} (h : userEq u v = true) (s : UserSet) :
    usMem u s = usMem v s := by
  have hk : pyLowerStr u.username = pyLowerStr v.username := by
    simpa [userEq] using h
  simp [usMem, userEq, hk]

theorem usMem_cons (u w : InstagramUser) (t : UserSet) :
    usMem u (w :: t) = (userEq w u || usMem u t) := by
  simp [usMem]

theorem usMem_append (u : InstagramUser) (a b : UserSet) :
    usMem u (a ++ b) = (usMem u a || usMem u b) := by
  simp [usMem, List.any_append]

theorem any_userEq_and (s : UserSet) (u : InstagramUser) (p : InstagramUser → Bool)
    (hp : ∀ v, userEq v u = true → p v = p u) :
    (s.any fun v => userEq v u && p v) = (usMem u s && p u) := by
  induction s with
  | nil => simp [usMem]
  | cons w t ih =>
    rw [List.any_cons, ih, usMem_cons]
    cases h : userEq w u
    · simp
    · rw [hp w h]
      cases p u <;> cases usMem u t <;> simp

theorem usMem_filter (u : InstagramUser) (s : UserSet) (p : InstagramUser → Bool) :
    usMem u (s.filter p) = s.any fun v => userEq v u && p v := by
  simp only [usMem, List.any_filter]
  congr 1
  funext v
  exact Bool.and_comm _ _

/-- Number of distinct canonical keys in a list that models a Python set:
it is just the list's length. -/
theorem pySet_key_count {s : UserSet} (hs : isPySet s) :
    (s.map canonicalKey).dedup.length = s.length := by
  have hnd : (s.map canonicalKey).Nodup :=
    List.Pairwise.map canonicalKey
      (fun {a b} h => canonicalKey_ne_of_userEq_false h) hs
  rw [List.dedup_eq_self.mpr hnd, List.length_map]

/-! ## Membership characterisation of the three analysis sets -/

theorem usMem_analyze_mutuals (F G : UserSet) (u : InstagramUser) :
    usMem u (analyze F G).mutuals = (usMem u F && usMem u G) := by
  show usMem u (F.filter fun v => usMem v G) = _
  rw [usMem_filter]
  exact any_userEq_and F u (fun v => usMem v G) (fun v hv => usMem_congr hv G)

theorem usMem_analyze_nfb (F G : UserSet) (u : InstagramUser) :
    usMem u (analyze F G).not_following_back = (usMem u G && !usMem u F) := by
  show usMem u (G.filter fun v => !usMem v F) = _
  rw [usMem_filter]
  exact any_userEq_and G u (fun v => !usMem v F)
    (fun v hv => by show (!usMem v F) = (!usMem u F); rw [usMem_congr hv F])

theorem usMem_analyze_nfbm (F G : UserSet) (u : InstagramUser) :
    usMem u (analyze F G).not_followed_by_me = (usMem u F && !usMem u G) := by
  show usMem u (F.filter fun v => !usMem v G) = _
  rw [usMem_filter]
  exact any_userEq_and F u (fun v => !usMem v G)
    (fun v hv => by show (!usMem v G) = (!usMem u G); rw [usMem_congr hv G])

/-- C1: for all finite identity sets F (followers) and G (following),
`analyze(F, G)` returns a result whose `mutual` field equals `F ∩ G`, whose
`not_following_back` field equals `G − F`, whose `not_followed_by_me` field
equals `F − G` (all three characterised by membership of an arbitrary
identity `u`), whose `total_followers` equals `|F|` and whose
`total_following` equals `|G|` (the number of distinct canonical keys). -/
theorem analyze_computes_set_relations (F G : UserSet) (u : InstagramUser)
    (hF : isPySet F) (hG : isPySet G) :
    usMem u (analyze F G).mutuals = (usMem u F && usMem u G) ∧
    usMem u (analyze F G).not_following_back = (usMem u G && !usMem u F) ∧
    usMem u (analyze F G).not_followed_by_me = (usMem u F && !usMem u G) ∧
    (analyze F G).total_followers = (F.map canonicalKey).dedup.length ∧
    (analyze F G).total_following = (G.map canonicalKey).dedup.length := by
  refine ⟨usMem_analyze_mutuals F G u, usMem_analyze_nfb F G u,
    usMem_analyze_nfbm F G u, ?_, ?_⟩
  · show F.length = _
    rw [pySet_key_count hF]
  · show G.length = _
    rw [pySet_key_count hG]

theorem analyze_computes_set_relations_witness :
    isPySet sampleFollowers ∧ isPySet sampleFollowing ∧
    (usMem ⟨"user2"⟩ (analyze sampleFollowers sampleFollowing).mutuals =
       (usMem ⟨"user2"⟩ sampleFollowers && usMem ⟨"user2"⟩ sampleFollowing) ∧
     usMem ⟨"user2"⟩ (analyze sampleFollowers sampleFollowing).not_following_back =
       (usMem ⟨"user2"⟩ sampleFollowing && !usMem ⟨"user2"⟩ sampleFollowers) ∧
     usMem ⟨"user2"⟩ (analyze sampleFollowers sampleFollowing).not_followed_by_me =
       (usMem ⟨"user2"⟩ sampleFollowers && !usMem ⟨"user2"⟩ sampleFollowing) ∧
     (analyze sampleFollowers sampleFollowing).total_followers =
       (sampleFollowers.map canonicalKey).dedup.length ∧
     (analyze sampleFollowers sampleFollowing).total_following =
       (sampleFollowing.map canonicalKey).dedup.length) :=
  ⟨by unfold isPySet; decide, by unfold isPySet; decide,
   analyze_computes_set_relations sampleFollowers sampleFollowing ⟨"user2"⟩
     (by unfold isPySet; decide) (by unfold isPySet; decide)⟩

/-- C4: for all finite identity sets F and G, the three result sets of
`analyze(F, G)` are pairwise disjoint, the union of `mutual` and
`not_following_back` has exactly the members of the following set G, and the
union of `mutual` and `not_followed_by_me` has exactly the members of the
followers set F. -/
theorem analyze_result_partition (F G : UserSet) (u : InstagramUser) :
    (usMem u (analyze F G).mutuals && usMem u (analyze F G).not_following_back) = false ∧
    (usMem u (analyze F G).mutuals && usMem u (analyze F G).not_followed_by_me) = false ∧
    (usMem u (analyze F G).not_following_back &&
       usMem u (analyze F G).not_followed_by_me) = false ∧
    usMem u ((analyze F G).mutuals ++ (analyze F G).not_following_back) = usMem u G ∧
    usMem u ((analyze F G).mutuals ++ (analyze F G).not_followed_by_me) = usMem u F := by
  have h1 := usMem_analyze_mutuals F G u
  have h2 := usMem_analyze_nfb F G u
  have h3 := usMem_analyze_nfbm F G u
  refine ⟨?_, ?_, ?_, ?_, ?_⟩
  · rw [h1, h2]; cases usMem u F <;> cases usMem u G <;> simp
  · rw [h1, h3]; cases usMem u F <;> cases usMem u G <;> simp
  · rw [h2, h3]; cases usMem u F <;> cases usMem u G <;> simp
  · rw [usMem_append, h1, h2]; cases usMem u F <;> cases usMem u G <;> simp
  · rw [usMem_append, h1, h3]; cases usMem u F <;> cases usMem u G <;> simp

/-- C3 counterexample: `" alice "` and `"alice"` agree after
whitespace-trimming and lower-casing, yet the identities built from the two
raw strings compare unequal (the source's `__eq__` only lower-cases, it
never trims), and inserting both into a set yields two members, not one. -/
theorem identity_trim_equality_counterexample :
    pyLowerStr (pyStripStr " alice ") = pyLowerStr (pyStripStr "alice") ∧
    userEq ⟨" alice "⟩ ⟨"alice"⟩ = false ∧
    (usAdd (usAdd [] ⟨" alice "⟩) ⟨"alice"⟩).length = 2 :=
  ⟨rfl, rfl, rfl⟩

/-- C3 amended: for all strings a and b that become equal after
lower-casing (trimming plays no role in identity equality; the parsers trim
before construction), the identity constructed from a equals the identity
constructed from b, the two identities have the same hash key, and
inserting both into a set yields exactly one member. -/
theorem identity_lower_equality (a b : String)
    (h : pyLowerStr a = pyLowerStr b) :
    userEq ⟨a⟩ ⟨b⟩ = true ∧ userHashKey ⟨a⟩ = userHashKey ⟨b⟩ ∧
    (usAdd (usAdd [] ⟨a⟩) ⟨b⟩).length = 1 := by
  refine ⟨by simp [userEq, h], by simp [userHashKey, h], ?_⟩
  simp [usAdd, usMem, userEq, h]

theorem identity_lower_equality_witness :
    pyLowerStr "TestUser" = pyLowerStr "testuser" ∧
    (userEq ⟨"TestUser"⟩ ⟨"testuser"⟩ = true ∧
     userHashKey ⟨"TestUser"⟩ = userHashKey ⟨"testuser"⟩ ∧
     (usAdd (usAdd [] ⟨"TestUser"⟩) ⟨"testuser"⟩).length = 1) :=
  ⟨rfl, identity_lower_equality "TestUser" "testuser" rfl⟩

/-- C2 counterexample: a buffer whose JSON decodes to `[1]` — a non-object
entry inside the expected top-level array — makes `parse_followers` raise
`AttributeError` (from `entry.get` on an int), so the parsers do not
tolerate every malformed buffer. -/
theorem parse_followers_raises_counterexample :
    parse_followers [some (.arr [.num 1])] = .error .attributeError :=
  rfl

theorem followersBufferStep_skip {b : Buffer} (hb : followersSkippable b)
    (st : UserSet) : followersBufferStep st b = .ok st := by
  rcases hb with rfl | ⟨j, rfl, hj⟩
  · rfl
  · cases j <;> first | rfl | simp [Json.isArr] at hj

theorem followersTsBufferStep_skip {b : Buffer} (hb : followersSkippable b)
    (st : UserSet × Timestamps) : followersTsBufferStep st b = .ok st := by
  rcases hb with rfl | ⟨j, rfl, hj⟩
  · rfl
  · cases j <;> first | rfl | simp [Json.isArr] at hj

/-- C2 amended: the parsers never raise for buffers that fail UTF-8
decoding or JSON parsing; the followers parsers additionally skip buffers
whose decoded top level is not a list, and the following parsers return
empty results when the decoded top level is an object whose
`relationships_following` value is not a list.  (Buffers of other
unexpected shapes — e.g. non-object entries inside the array, or a
non-object top level for the following parsers — can raise, per the
counterexample.) -/
theorem parsers_tolerance_amended :
    (∀ files : List Buffer, (∀ b ∈ files, followersSkippable b) →
      parse_followers files = .ok [] ∧
      parse_followers_with_timestamps files = .ok ([], [])) ∧
    (parse_following none = .ok [] ∧
     parse_following_with_timestamps none = .ok ([], [])) ∧
    (∀ (fields : List (String × Json)) (v : Json),
      fields.lookup "relationships_following" = some v → v.isArr = false →
      parse_following (some (.obj fields)) = .ok [] ∧
      parse_following_with_timestamps (some (.obj fields)) = .ok ([], [])) := by
  refine ⟨?_, ⟨rfl, rfl⟩, ?_⟩
  · intro files hfiles
    constructor
    · show exceptFold followersBufferStep [] files = .ok []
      induction files with
      | nil => rfl
      | cons b rest ih =>
        rw [exceptFold, followersBufferStep_skip (hfiles b (by simp))]
        exact ih fun x hx => hfiles x (by simp [hx])
    · show exceptFold followersTsBufferStep ([], []) files = .ok ([], [])
      induction files with
      | nil => rfl
      | cons b rest ih =>
        rw [exceptFold, followersTsBufferStep_skip (hfiles b (by simp))]
        exact ih fun x hx => hfiles x (by simp [hx])
  · intro fields v hv harr
    constructor
    · show parse_following (some (.obj fields)) = .ok []
      simp only [parse_following, dictGet, hv, Option.getD]
      cases v <;> first | rfl | simp [Json.isArr] at harr
    · show parse_following_with_timestamps (some (.obj fields)) = .ok ([], [])
      simp only [parse_following_with_timestamps, dictGet, hv, Option.getD]
      cases v <;> first | rfl | simp [Json.isArr] at harr

theorem parsers_tolerance_amended_witness :
    (∀ b ∈ ([none, some (.obj [("x", .num 1)])] : List Buffer), followersSkippable b) ∧
    (parse_followers [none, some (.obj [("x", .num 1)])] = .ok [] ∧
     parse_followers_with_timestamps [none, some (.obj [("x", .num 1)])] = .ok ([], [])) ∧
    ([("relationships_following", Json.num 7)].lookup "relationships_following" =
       some (Json.num 7)) ∧
    (Json.num 7).isArr = false ∧
    (parse_following (some (.obj [("relationships_following", .num 7)])) = .ok [] ∧
     parse_following_with_timestamps
       (some (.obj [("relationships_following", .num 7)])) = .ok ([], [])) := by
  have hskip : ∀ b ∈ ([none, some (.obj [("x", .num 1)])] : List Buffer),
      followersSkippable b := by
    intro b hb
    simp only [List.mem_cons, List.not_mem_nil, or_false] at hb
    rcases hb with rfl | rfl
    · exact Or.inl rfl
    · exact Or.inr ⟨_, rfl, rfl⟩
  exact ⟨hskip, parsers_tolerance_amended.1 _ hskip, rfl, rfl,
    parsers_tolerance_amended.2.2 _ (.num 7) rfl rfl⟩

theorem followersTsItemStep_ts_falsy {st st' : UserSet × Timestamps}
    {fields : List (String × Json)}
    (hts : ((fields.lookup "timestamp").getD .null).truthy = false)
    (hstep : followersTsItemStep st (.obj fields) = .ok st') : st'.2 = st.2 := by
  have he : followersTsItemStep st (.obj fields) =
      if (((fields.lookup "value").getD .null).truthy = true) then
        (match pyStrip ((fields.lookup "value").getD .null) with
         | .error e => .error e
         | .ok username =>
           if (((fields.lookup "timestamp").getD .null).truthy = true) then
             .ok (usAdd st.1 ⟨username⟩,
                  tsSet st.2 (pyLowerStr username) ((fields.lookup "timestamp").getD .null))
           else .ok (usAdd st.1 ⟨username⟩, st.2))
      else .ok st := rfl
  rw [he, hts] at hstep
  simp only [Bool.false_eq_true, if_false] at hstep
  cases ht : ((fields.lookup "value").getD .null).truthy with
  | false =>
    rw [ht] at hstep
    simp only [Bool.false_eq_true, if_false] at hstep
    cases hstep
    rfl
  | true =>
    rw [ht] at hstep
    simp only [if_true] at hstep
    cases hs : pyStrip ((fields.lookup "value").getD .null) with
    | error e => rw [hs] at hstep; exact absurd hstep (by simp)
    | ok username =>
      rw [hs] at hstep
      cases hstep
      rfl

theorem followingTsEntryStep_first_ts_falsy {st st' : UserSet × Timestamps}
    {t : String} {fields : List (String × Json)} {rest : List Json}
    (hts : ((fields.lookup "timestamp").getD .null).truthy = false)
    (hstep : followingTsEntryStep st
        (.obj [("title", .str t), ("string_list_data", .arr (.obj fields :: rest))]) =
      .ok st') : st'.2 = st.2 := by
  have he : followingTsEntryStep st
      (.obj [("title", .str t), ("string_list_data", .arr (.obj fields :: rest))]) =
      if ((t != "") = true) then
        (if (((fields.lookup "timestamp").getD .null).truthy = true) then
          .ok (usAdd st.1 ⟨pyStripStr t⟩,
               tsSet st.2 (pyLowerStr (pyStripStr t)) ((fields.lookup "timestamp").getD .null))
        else .ok (usAdd st.1 ⟨pyStripStr t⟩, st.2))
      else .ok st := rfl
  rw [he, hts] at hstep
  simp only [Bool.false_eq_true, if_false] at hstep
  by_cases h : t = ""
  · subst h
    simp only [bne_self_eq_false, Bool.false_eq_true, if_false] at hstep
    cases hstep
    rfl
  · rw [if_pos (by simp [h])] at hstep
    cases hstep
    rfl

theorem followingTsEntryStep_empty_list {st st' : UserSet × Timestamps} {t : String}
    (hstep : followingTsEntryStep st
        (.obj [("title", .str t), ("string_list_data", .arr [])]) = .ok st') :
    st'.2 = st.2 := by
  have he : followingTsEntryStep st
      (.obj [("title", .str t), ("string_list_data", .arr [])]) =
      if ((t != "") = true) then .ok (usAdd st.1 ⟨pyStripStr t⟩, st.2)
      else .ok st := rfl
  rw [he] at hstep
  by_cases h : t = ""
  · subst h
    simp only [bne_self_eq_false, Bool.false_eq_true, if_false] at hstep
    cases hstep
    rfl
  · rw [if_pos (by simp [h])] at hstep
    cases hstep
    rfl

/-- Evaluation of the followers item step on an arbitrary object item. -/
theorem followersTsItemStep_obj (st : UserSet × Timestamps)
    (fields : List (String × Json)) :
    followersTsItemStep st (.obj fields) =
      if (((fields.lookup "value").getD .null).truthy = true) then
        (match pyStrip ((fields.lookup "value").getD .null) with
         | .error e => .error e
         | .ok username =>
           if (((fields.lookup "timestamp").getD .null).truthy = true) then
             .ok (usAdd st.1 ⟨username⟩,
                  tsSet st.2 (pyLowerStr username) ((fields.lookup "timestamp").getD .null))
           else .ok (usAdd st.1 ⟨username⟩, st.2))
      else .ok st := rfl

/-- C5: on the documented three-user buffer the followers parser returns an
identity set of size 3 and the timestamp map
{"user1": 123, "user2": 124, "user3": 125}; in general an item without the
"value" field contributes nothing, and an item without the "timestamp"
field adds no key to the timestamp map (never a zero timestamp). -/
theorem parse_followers_with_timestamps_spec :
    (parse_followers_with_timestamps [followersBuffer3] =
       .ok ([⟨"user1"⟩, ⟨"user2"⟩, ⟨"user3"⟩],
            [("user1", .num 123), ("user2", .num 124), ("user3", .num 125)]) ∧
     ([⟨"user1"⟩, ⟨"user2"⟩, ⟨"user3"⟩] : UserSet).length = 3) ∧
    (∀ (st : UserSet × Timestamps) (fields : List (String × Json)),
      fields.lookup "value" = none →
      followersTsItemStep st (.obj fields) = .ok st) ∧
    (∀ (st st' : UserSet × Timestamps) (fields : List (String × Json)),
      fields.lookup "timestamp" = none →
      followersTsItemStep st (.obj fields) = .ok st' → st'.2 = st.2) := by
  refine ⟨⟨rfl, rfl⟩, ?_, ?_⟩
  · intro st fields hv
    rw [followersTsItemStep_obj, hv]
    rfl
  · intro st st' fields hts hstep
    exact followersTsItemStep_ts_falsy (by rw [hts]; rfl) hstep

theorem parse_followers_with_timestamps_spec_witness :
    ([("title", Json.str "x")].lookup "value" = none) ∧
    followersTsItemStep (([], []) : UserSet × Timestamps)
      (.obj [("title", .str "x")]) = .ok (([], []) : UserSet × Timestamps) ∧
    ([("value", Json.str "u")].lookup "timestamp" = none) ∧
    followersTsItemStep (([], []) : UserSet × Timestamps)
      (.obj [("value", .str "u")]) = .ok (([⟨"u"⟩], []) : UserSet × Timestamps) ∧
    ((([⟨"u"⟩], []) : UserSet × Timestamps).2 = (([], []) : UserSet × Timestamps).2) :=
  ⟨rfl,
   parse_followers_with_timestamps_spec.2.1 ([], []) [("title", .str "x")] rfl,
   rfl, rfl,
   parse_followers_with_timestamps_spec.2.2 ([], []) ([⟨"u"⟩], [])
     [("value", .str "u")] rfl rfl⟩

/-- C6: the following parser takes each entry's identity from its "title"
field and its timestamp only from the first element of the entry's
"string_list_data" list (later sub-entries are ignored); when that list is
empty or its first sub-entry lacks "timestamp", the key is omitted from the
timestamp map; and the documented two-user example evaluates to the set
{user2, user4} with timestamps {"user2": 123, "user4": 124}. -/
theorem parse_following_with_timestamps_spec :
    (∀ (st : UserSet × Timestamps) (t : String) (x : Json) (rest : List Json),
      followingTsEntryStep st
          (.obj [("title", .str t), ("string_list_data", .arr (x :: rest))]) =
        followingTsEntryStep st
          (.obj [("title", .str t), ("string_list_data", .arr [x])])) ∧
    (∀ (st st' : UserSet × Timestamps) (t : String),
      followingTsEntryStep st
          (.obj [("title", .str t), ("string_list_data", .arr [])]) = .ok st' →
      st'.2 = st.2) ∧
    (∀ (st st' : UserSet × Timestamps) (t : String)
       (fields : List (String × Json)) (rest : List Json),
      fields.lookup "timestamp" = none →
      followingTsEntryStep st
          (.obj [("title", .str t),
                 ("string_list_data", .arr (.obj fields :: rest))]) = .ok st' →
      st'.2 = st.2) ∧
    parse_following_with_timestamps followingBuffer2 =
      .ok ([⟨"user2"⟩, ⟨"user4"⟩], [("user2", .num 123), ("user4", .num 124)]) :=
  ⟨fun _ _ _ _ => rfl,
   fun _ _ _ h => followingTsEntryStep_empty_list h,
   fun _ _ _ _ _ hts h => followingTsEntryStep_first_ts_falsy (by rw [hts]; rfl) h,
   rfl⟩

theorem parse_following_with_timestamps_spec_witness :
    followingTsEntryStep (([], []) : UserSet × Timestamps)
      (.obj [("title", .str "user9"), ("string_list_data", .arr [])]) =
      .ok (([⟨"user9"⟩], []) : UserSet × Timestamps) ∧
    (([("href", Json.str "h")].lookup "timestamp") = none) ∧
    followingTsEntryStep (([], []) : UserSet × Timestamps)
      (.obj [("title", .str "a"),
             ("string_list_data", .arr [.obj [("href", .str "h")]])]) =
      .ok (([⟨"a"⟩], []) : UserSet × Timestamps) ∧
    ((([⟨"user9"⟩], []) : UserSet × Timestamps).2 =
      (([], []) : UserSet × Timestamps).2) ∧
    ((([⟨"a"⟩], []) : UserSet × Timestamps).2 =
      (([], []) : UserSet × Timestamps).2) :=
  ⟨rfl, rfl, rfl,
   parse_following_with_timestamps_spec.2.1 ([], []) ([⟨"user9"⟩], []) "user9" rfl,
   parse_following_with_timestamps_spec.2.2.1 ([], []) ([⟨"a"⟩], []) "a"
     [("href", .str "h")] [] rfl rfl⟩

/-- C10: a "timestamp" field present with the integer value 0 behaves
exactly as an absent "timestamp" field, in both timestamp-extracting
parsers: the processing step is literally the same function of the state,
and the entry's key is omitted from the timestamp map. -/
theorem zero_timestamp_as_absent :
    (∀ (st : UserSet × Timestamps) (v : Json),
      followersTsItemStep st (.obj [("value", v), ("timestamp", .num 0)]) =
        followersTsItemStep st (.obj [("value", v)])) ∧
    (∀ (st : UserSet × Timestamps) (t : String),
      followingTsEntryStep st
          (.obj [("title", .str t),
                 ("string_list_data", .arr [.obj [("timestamp", .num 0)]])]) =
        followingTsEntryStep st
          (.obj [("title", .str t), ("string_list_data", .arr [.obj []])])) ∧
    (∀ (st st' : UserSet × Timestamps) (fields : List (String × Json)),
      fields.lookup "timestamp" = some (.num 0) →
      followersTsItemStep st (.obj fields) = .ok st' → st'.2 = st.2) ∧
    (∀ (st st' : UserSet × Timestamps) (t : String)
       (fields : List (String × Json)) (rest : List Json),
      fields.lookup "timestamp" = some (.num 0) →
      followingTsEntryStep st
          (.obj [("title", .str t),
                 ("string_list_data", .arr (.obj fields :: rest))]) = .ok st' →
      st'.2 = st.2) :=
  ⟨fun _ _ => rfl,
   fun _ _ => rfl,
   fun _ _ _ hts h => followersTsItemStep_ts_falsy (by rw [hts]; rfl) h,
   fun _ _ _ _ _ hts h => followingTsEntryStep_first_ts_falsy (by rw [hts]; rfl) h⟩

theorem zero_timestamp_as_absent_witness :
    ([("value", Json.str "u"), ("timestamp", Json.num 0)].lookup "timestamp" =
       some (Json.num 0)) ∧
    followersTsItemStep (([], []) : UserSet × Timestamps)
      (.obj [("value", .str "u"), ("timestamp", .num 0)]) =
      .ok (([⟨"u"⟩], []) : UserSet × Timestamps) ∧
    ((([⟨"u"⟩], []) : UserSet × Timestamps).2 = (([], []) : UserSet × Timestamps).2) :=
  ⟨rfl, rfl,
   zero_timestamp_as_absent.2.2.1 ([], []) ([⟨"u"⟩], [])
     [("value", .str "u"), ("timestamp", .num 0)] rfl rfl⟩

theorem userEq_symm (a b : InstagramUser) : userEq a b = userEq b a := by
  unfold userEq
  by_cases h : pyLowerStr a.username = pyLowerStr b.username
  · rw [h]
  · rw [show (pyLowerStr a.username == pyLowerStr b.username) = false from
      beq_eq_false_iff_ne.mpr h,
      show (pyLowerStr b.username == pyLowerStr a.username) = false from
      beq_eq_false_iff_ne.mpr (Ne.symm h)]

theorem usMem_usAdd (u v : InstagramUser) (s : UserSet) :
    usMem u (usAdd s v) = (usMem u s || userEq v u) := by
  unfold usAdd
  cases h : usMem v s
  · simp only [Bool.false_eq_true, if_false]
    simp [usMem]
  · simp only [if_true]
    cases hvu : userEq v u
    · simp
    · have huv : userEq u v = true := by rw [userEq_symm]; exact hvu
      rw [usMem_congr huv s, h]
      simp

theorem usMem_foldl_usAdd (u : InstagramUser) (us : List InstagramUser) (s : UserSet) :
    usMem u (us.foldl usAdd s) = (usMem u s || us.any fun v => userEq v u) := by
  induction us generalizing s with
  | nil => simp
  | cons v t ih =>
    rw [List.foldl_cons, ih, usMem_usAdd, List.any_cons]
    cases usMem u s <;> cases userEq v u <;> simp

theorem foldl_usAdd_of_mem {us : List InstagramUser} {s : UserSet}
    (h : ∀ u ∈ us, usMem u s = true) : us.foldl usAdd s = s := by
  induction us with
  | nil => rfl
  | cons v t ih =>
    rw [List.foldl_cons,
      show usAdd s v = s from by unfold usAdd; rw [if_pos (h v (by simp))]]
    exact ih fun u hu => h u (by simp [hu])

theorem followersItemStep_eq (st : UserSet) (item : Json) :
    followersItemStep st item =
      (followersItemUsers item).map (fun us => us.foldl usAdd st) := by
  unfold followersItemStep followersItemUsers
  cases dictGet item "value" .null with
  | error e => rfl
  | ok value =>
    cases ht : value.truthy
    · simp [ht, Except.map]
    · cases hs : pyStrip value with
      | error e => simp [ht, hs, Except.map]
      | ok username => simp [ht, hs, Except.map]

theorem exceptFold_eq_collect {α : Type}
    (g : α → Except PyErr (List InstagramUser))
    (f : UserSet → α → Except PyErr UserSet)
    (hfg : ∀ st x, f st x = (g x).map (fun us => us.foldl usAdd st)) :
    ∀ (xs : List α) (acc : List InstagramUser) (st : UserSet),
      exceptFold f (acc.foldl usAdd st) xs =
        (collectFold g acc xs).map (fun us => us.foldl usAdd st) := by
  intro xs
  induction xs with
  | nil => intro acc st; rfl
  | cons x t ih =>
    intro acc st
    cases hx : g x with
    | error e =>
      have hf : f (acc.foldl usAdd st) x = .error e := by rw [hfg, hx]; rfl
      simp [exceptFold, collectFold, hx, hf, Except.map]
    | ok us =>
      have hf : f (acc.foldl usAdd st) x = .ok (us.foldl usAdd (acc.foldl usAdd st)) := by
        rw [hfg, hx]; rfl
      simp only [exceptFold, collectFold, hx, hf]
      rw [← List.foldl_append, ih]

theorem followersEntryStep_eq (st : UserSet) (entry : Json) :
    followersEntryStep st entry =
      (followersEntryUsers entry).map (fun us => us.foldl usAdd st) := by
  unfold followersEntryStep followersEntryUsers
  cases dictGet entry "string_list_data" (.arr []) with
  | error e => rfl
  | ok sl =>
    show (match pyIter sl with
          | Except.error e => (Except.error e : Except PyErr UserSet)
          | Except.ok items => exceptFold followersItemStep st items) =
        Except.map (fun us => us.foldl usAdd st)
          (match pyIter sl with
           | Except.error e => (Except.error e : Except PyErr (List InstagramUser))
           | Except.ok items => collectFold followersItemUsers [] items)
    cases pyIter sl with
    | error e => rfl
    | ok items =>
      exact exceptFold_eq_collect followersItemUsers followersItemStep
        followersItemStep_eq items [] st

theorem followersBufferStep_eq (st : UserSet) (b : Buffer) :
    followersBufferStep st b =
      (followersBufferUsers b).map (fun us => us.foldl usAdd st) := by
  cases b with
  | none => rfl
  | some j =>
    cases j with
    | arr entries =>
      exact exceptFold_eq_collect followersEntryUsers followersEntryStep
        followersEntryStep_eq entries [] st
    | null => rfl
    | bool b => rfl
    | num n => rfl
    | str s => rfl
    | obj fields => rfl

theorem parse_followers_eq_collect (files : List Buffer) :
    parse_followers files =
      (collectFold followersBufferUsers [] files).map (fun us => us.foldl usAdd []) :=
  exceptFold_eq_collect followersBufferUsers followersBufferStep
    followersBufferStep_eq files [] []

/-- C7: parsing the same well-formed followers buffer twice yields the same
identity set as parsing it once (identities are deduplicated across
buffers); in particular two copies of the three-user buffer give a
3-member set, not 6. -/
theorem parse_followers_duplicate_buffer (b : Buffer) (s : UserSet)
    (h : parse_followers [b] = .ok s) :
    parse_followers [b, b] = .ok s ∧
    parse_followers [followersBuffer3, followersBuffer3] =
      .ok [⟨"user1"⟩, ⟨"user2"⟩, ⟨"user3"⟩] ∧
    ([⟨"user1"⟩, ⟨"user2"⟩, ⟨"user3"⟩] : UserSet).length = 3 := by
  refine ⟨?_, rfl, rfl⟩
  rw [parse_followers_eq_collect] at h
  rw [parse_followers_eq_collect]
  cases hb : followersBufferUsers b with
  | error e =>
    rw [show collectFold followersBufferUsers [] [b] = .error e from by
      simp [collectFold, hb]] at h
    exact absurd h (by simp [Except.map])
  | ok us =>
    rw [show collectFold followersBufferUsers [] [b] = .ok us from by
      simp [collectFold, hb]] at h
    simp only [Except.map] at h
    rw [show collectFold followersBufferUsers [] [b, b] = .ok (us ++ us) from by
      simp [collectFold, hb]]
    simp only [Except.map]
    rw [List.foldl_append]
    have hs : us.foldl usAdd [] = s := by
      cases h; rfl
    rw [hs, foldl_usAdd_of_mem]
    intro u hu
    rw [← hs, usMem_foldl_usAdd]
    simp only [Bool.or_eq_true]
    exact Or.inr (List.any_eq_true.mpr ⟨u, hu, userEq_refl u⟩)

theorem parse_followers_duplicate_buffer_witness :
    parse_followers [followersBuffer3] = .ok [⟨"user1"⟩, ⟨"user2"⟩, ⟨"user3"⟩] ∧
    parse_followers [followersBuffer3, followersBuffer3] =
      .ok [⟨"user1"⟩, ⟨"user2"⟩, ⟨"user3"⟩] :=
  ⟨rfl, (parse_followers_duplicate_buffer followersBuffer3
    [⟨"user1"⟩, ⟨"user2"⟩, ⟨"user3"⟩] rfl).1⟩

theorem followersTsItemStep_fst (us : UserSet) (ts : Timestamps) (item : Json) :
    (followersTsItemStep (us, ts) item).map Prod.fst = followersItemStep us item := by
  cases item with
  | obj fields =>
    rw [followersTsItemStep_obj]
    show _ = followersItemStep us (.obj fields)
    rw [show followersItemStep us (.obj fields) =
        if (((fields.lookup "value").getD .null).truthy = true) then
          (match pyStrip ((fields.lookup "value").getD .null) with
           | Except.error e => (Except.error e : Except PyErr UserSet)
           | Except.ok username => Except.ok (usAdd us ⟨username⟩))
        else Except.ok us from rfl]
    cases ht : ((fields.lookup "value").getD .null).truthy
    · simp [Except.map]
    · cases hs : pyStrip ((fields.lookup "value").getD .null) with
      | error e => simp [hs, Except.map]
      | ok username =>
        cases htt : ((fields.lookup "timestamp").getD .null).truthy <;>
          simp [hs, htt, Except.map]
  | null => rfl
  | bool b => rfl
  | num n => rfl
  | str s => rfl
  | arr elems => rfl

theorem exceptFold_fst {α : Type}
    (F : UserSet × Timestamps → α → Except PyErr (UserSet × Timestamps))
    (f : UserSet → α → Except PyErr UserSet)
    (hFf : ∀ us ts x, (F (us, ts) x).map Prod.fst = f us x) :
    ∀ (xs : List α) (us : UserSet) (ts : Timestamps),
      (exceptFold F (us, ts) xs).map Prod.fst = exceptFold f us xs := by
  intro xs
  induction xs with
  | nil => intro us ts; rfl
  | cons x t ih =>
    intro us ts
    have hx := hFf us ts x
    cases hF : F (us, ts) x with
    | error e =>
      rw [hF] at hx
      simp only [Except.map] at hx
      simp [exceptFold, hF, ← hx, Except.map]
    | ok st' =>
      rw [hF] at hx
      simp only [Except.map] at hx
      simp only [exceptFold, hF, ← hx]
      have := ih st'.1 st'.2
      rw [show (st'.1, st'.2) = st' from rfl] at this
      exact this

theorem followersTsEntryStep_fst (us : UserSet) (ts : Timestamps) (entry : Json) :
    (followersTsEntryStep (us, ts) entry).map Prod.fst = followersEntryStep us entry := by
  unfold followersTsEntryStep followersEntryStep
  cases dictGet entry "string_list_data" (.arr []) with
  | error e => rfl
  | ok sl =>
    show Except.map Prod.fst
        (match pyIter sl with
         | Except.error e => (Except.error e : Except PyErr (UserSet × Timestamps))
         | Except.ok items => exceptFold followersTsItemStep (us, ts) items) =
      (match pyIter sl with
       | Except.error e => (Except.error e : Except PyErr UserSet)
       | Except.ok items => exceptFold followersItemStep us items)
    cases pyIter sl with
    | error e => rfl
    | ok items =>
      exact exceptFold_fst followersTsItemStep followersItemStep
        followersTsItemStep_fst items us ts

theorem followersTsBufferStep_fst (us : UserSet) (ts : Timestamps) (b : Buffer) :
    (followersTsBufferStep (us, ts) b).map Prod.fst = followersBufferStep us b := by
  cases b with
  | none => rfl
  | some j =>
    cases j with
    | arr entries =>
      exact exceptFold_fst followersTsEntryStep followersEntryStep
        followersTsEntryStep_fst entries us ts
    | null => rfl
    | bool b => rfl
    | num n => rfl
    | str s => rfl
    | obj fields => rfl

/-- C8: for every list of input buffers, `parse_followers` returns exactly
the first component of the pair returned by
`parse_followers_with_timestamps` — the identity sets coincide, and one
raises if and only if the other does. -/
theorem parse_followers_refines (files : List Buffer) :
    parse_followers files = (parse_followers_with_timestamps files).map Prod.fst :=
  (exceptFold_fst followersTsBufferStep followersBufferStep
    followersTsBufferStep_fst files [] []).symm

theorem exceptFold_preserve {σ : Type} {α : Type} (P : σ → Prop)
    (f : σ → α → Except PyErr σ)
    (hf : ∀ st x st', P st → f st x = .ok st' → P st') :
    ∀ (xs : List α) (st st' : σ), P st → exceptFold f st xs = .ok st' → P st' := by
  intro xs
  induction xs with
  | nil =>
    intro st st' h hfold
    cases hfold
    exact h
  | cons x t ih =>
    intro st st' h hfold
    cases hx : f st x with
    | error e =>
      rw [show exceptFold f st (x :: t) =
          (match f st x with
           | Except.error e => (Except.error e : Except PyErr σ)
           | Except.ok st1 => exceptFold f st1 t) from rfl, hx] at hfold
      exact absurd hfold (by simp)
    | ok st1 =>
      rw [show exceptFold f st (x :: t) =
          (match f st x with
           | Except.error e => (Except.error e : Except PyErr σ)
           | Except.ok st1 => exceptFold f st1 t) from rfl, hx] at hfold
      exact ih st1 st' (hf st x st1 h hx) hfold

theorem pyStrip_ok {j : Json} {u : String} (h : pyStrip j = .ok u) :
    ∃ v, u = pyStripStr v := by
  cases j <;> simp [pyStrip] at h
  exact ⟨_, h.symm⟩

theorem handlesStripped_foldl {us : List InstagramUser} {s : UserSet}
    (hs : handlesStripped s)
    (hus : ∀ u ∈ us, ∃ v, u.username = pyStripStr v) :
    handlesStripped (us.foldl usAdd s) := by
  induction us generalizing s with
  | nil => exact hs
  | cons w t ih =>
    rw [List.foldl_cons]
    refine ih ?_ (fun u hu => hus u (by simp [hu]))
    obtain ⟨v, hv⟩ := hus w (by simp)
    unfold usAdd
    by_cases hm : usMem w s = true
    · rw [if_pos hm]; exact hs
    · rw [if_neg hm]
      intro u hu
      rcases List.mem_append.mp hu with h1 | h2
      · exact hs u h1
      · rw [List.mem_singleton] at h2
        subst h2
        exact ⟨v, hv⟩

theorem followersItemUsers_stripped {item : Json} {us : List InstagramUser}
    (h : followersItemUsers item = .ok us) :
    ∀ u ∈ us, ∃ v, u.username = pyStripStr v := by
  cases item with
  | obj fields =>
    rw [show followersItemUsers (.obj fields) =
        if (((fields.lookup "value").getD .null).truthy = true) then
          (match pyStrip ((fields.lookup "value").getD .null) with
           | Except.error e => (Except.error e : Except PyErr (List InstagramUser))
           | Except.ok username => Except.ok [⟨username⟩])
        else Except.ok [] from rfl] at h
    cases ht : ((fields.lookup "value").getD .null).truthy
    · rw [ht] at h
      simp only [Bool.false_eq_true, if_false] at h
      cases h
      simp
    · rw [ht] at h
      simp only [if_true] at h
      cases hs : pyStrip ((fields.lookup "value").getD .null) with
      | error e => rw [hs] at h; exact absurd h (by simp)
      | ok username =>
        rw [hs] at h
        cases h
        intro u hu
        rw [List.mem_singleton] at hu
        subst hu
        obtain ⟨v, hv⟩ := pyStrip_ok hs
        exact ⟨v, hv⟩
  | null => exact absurd h (by simp [followersItemUsers, dictGet])
  | bool b => exact absurd h (by simp [followersItemUsers, dictGet])
  | num n => exact absurd h (by simp [followersItemUsers, dictGet])
  | str s => exact absurd h (by simp [followersItemUsers, dictGet])
  | arr elems => exact absurd h (by simp [followersItemUsers, dictGet])

theorem collectFold_stripped {α : Type} {g : α → Except PyErr (List InstagramUser)}
    (hg : ∀ x us, g x = .ok us → ∀ u ∈ us, ∃ v, u.username = pyStripStr v) :
    ∀ (xs : List α) (acc res : List InstagramUser),
      (∀ u ∈ acc, ∃ v, u.username = pyStripStr v) →
      collectFold g acc xs = .ok res →
      ∀ u ∈ res, ∃ v, u.username = pyStripStr v := by
  intro xs
  induction xs with
  | nil =>
    intro acc res hacc h
    cases h
    exact hacc
  | cons x t ih =>
    intro acc res hacc h
    cases hx : g x with
    | error e =>
      rw [show collectFold g acc (x :: t) =
          (match g x with
           | Except.error e => (Except.error e : Except PyErr (List InstagramUser))
           | Except.ok us => collectFold g (acc ++ us) t) from rfl, hx] at h
      exact absurd h (by simp)
    | ok us =>
      rw [show collectFold g acc (x :: t) =
          (match g x with
           | Except.error e => (Except.error e : Except PyErr (List InstagramUser))
           | Except.ok us => collectFold g (acc ++ us) t) from rfl, hx] at h
      refine ih (acc ++ us) res ?_ h
      intro u hu
      rcases List.mem_append.mp hu with h1 | h2
      · exact hacc u h1
      · exact hg x us hx u h2

theorem followersEntryUsers_stripped {entry : Json} {us : List InstagramUser}
    (h : followersEntryUsers entry = .ok us) :
    ∀ u ∈ us, ∃ v, u.username = pyStripStr v := by
  unfold followersEntryUsers at h
  cases hd : dictGet entry "string_list_data" (.arr []) with
  | error e => rw [hd] at h; exact absurd h (by simp)
  | ok sl =>
    rw [hd] at h
    replace h : (match pyIter sl with
        | Except.error e => (Except.error e : Except PyErr (List InstagramUser))
        | Except.ok items => collectFold followersItemUsers [] items) = .ok us := h
    cases hi : pyIter sl with
    | error e => rw [hi] at h; exact absurd h (by simp)
    | ok items =>
      rw [hi] at h
      exact collectFold_stripped (fun x u hx => followersItemUsers_stripped hx)
        items [] us (by simp) h

theorem followersBufferUsers_stripped {b : Buffer} {us : List InstagramUser}
    (h : followersBufferUsers b = .ok us) :
    ∀ u ∈ us, ∃ v, u.username = pyStripStr v := by
  cases b with
  | none => cases h; simp
  | some j =>
    cases j with
    | arr entries =>
      exact collectFold_stripped (fun x u hx => followersEntryUsers_stripped hx)
        entries [] us (by simp) h
    | null => cases h; simp
    | bool b => cases h; simp
    | num n => cases h; simp
    | str s => cases h; simp
    | obj fields => cases h; simp

/-- Evaluation of the simple following entry step on an object entry. -/
theorem followingEntryStep_obj (st : UserSet) (fields : List (String × Json)) :
    followingEntryStep st (.obj fields) =
      if (((fields.lookup "title").getD .null).truthy = true) then
        (match pyStrip ((fields.lookup "title").getD .null) with
         | Except.error e => (Except.error e : Except PyErr UserSet)
         | Except.ok username => Except.ok (usAdd st ⟨username⟩))
      else Except.ok st := rfl

/-- Evaluation of the timestamp-extracting following entry step on an
object entry. -/
theorem followingTsEntryStep_obj (st : UserSet × Timestamps)
    (fields : List (String × Json)) :
    followingTsEntryStep st (.obj fields) =
      if (((fields.lookup "title").getD .null).truthy = true) then
        (match pyStrip ((fields.lookup "title").getD .null) with
         | Except.error e => (Except.error e : Except PyErr (UserSet × Timestamps))
         | Except.ok username =>
           if (((fields.lookup "string_list_data").getD (.arr [])).truthy = true) then
             (match pyIndex ((fields.lookup "string_list_data").getD (.arr [])) 0 with
              | Except.error e => Except.error e
              | Except.ok firstItem =>
                match dictGet firstItem "timestamp" .null with
                | Except.error e => Except.error e
                | Except.ok ts =>
                  if (ts.truthy = true) then
                    Except.ok (usAdd st.1 ⟨username⟩,
                               tsSet st.2 (pyLowerStr username) ts)
                  else Except.ok (usAdd st.1 ⟨username⟩, st.2))
           else Except.ok (usAdd st.1 ⟨username⟩, st.2))
      else Except.ok st := rfl

theorem followingEntryStep_stripped {st st' : UserSet} {entry : Json}
    (hst : handlesStripped st) (h : followingEntryStep st entry = .ok st') :
    handlesStripped st' := by
  cases entry with
  | obj fields =>
    rw [followingEntryStep_obj] at h
    cases ht : ((fields.lookup "title").getD .null).truthy
    · rw [ht] at h
      simp only [Bool.false_eq_true, if_false] at h
      cases h
      exact hst
    · rw [ht] at h
      simp only [if_true] at h
      cases hs : pyStrip ((fields.lookup "title").getD .null) with
      | error e => rw [hs] at h; exact absurd h (by simp)
      | ok username =>
        rw [hs] at h
        cases h
        obtain ⟨v, hv⟩ := pyStrip_ok hs
        exact @handlesStripped_foldl [⟨username⟩] st hst
          (by intro u hu; rw [List.mem_singleton] at hu; subst hu; exact ⟨v, hv⟩)
  | null => exact absurd h (by simp [followingEntryStep, dictGet])
  | bool b => exact absurd h (by simp [followingEntryStep, dictGet])
  | num n => exact absurd h (by simp [followingEntryStep, dictGet])
  | str s => exact absurd h (by simp [followingEntryStep, dictGet])
  | arr elems => exact absurd h (by simp [followingEntryStep, dictGet])

theorem followingTsEntryStep_stripped {st st' : UserSet × Timestamps} {entry : Json}
    (hst : handlesStripped st.1) (h : followingTsEntryStep st entry = .ok st') :
    handlesStripped st'.1 := by
  cases entry with
  | obj fields =>
    rw [followingTsEntryStep_obj] at h
    cases ht : ((fields.lookup "title").getD .null).truthy
    · rw [ht] at h
      simp only [Bool.false_eq_true, if_false] at h
      cases h
      exact hst
    · rw [ht] at h
      simp only [if_true] at h
      cases hs : pyStrip ((fields.lookup "title").getD .null) with
      | error e => rw [hs] at h; exact absurd h (by simp)
      | ok username =>
        rw [hs] at h
        obtain ⟨v, hv⟩ := pyStrip_ok hs
        have hadd : handlesStripped (usAdd st.1 ⟨username⟩) :=
          @handlesStripped_foldl [⟨username⟩] st.1 hst
            (by intro u hu; rw [List.mem_singleton] at hu; subst hu; exact ⟨v, hv⟩)
        cases hsl : ((fields.lookup "string_list_data").getD (.arr [])).truthy
        · rw [hsl] at h
          simp only [Bool.false_eq_true, if_false] at h
          cases h
          exact hadd
        · rw [hsl] at h
          simp only [if_true] at h
          cases hi : pyIndex ((fields.lookup "string_list_data").getD (.arr [])) 0 with
          | error e => rw [hi] at h; exact absurd h (by simp)
          | ok firstItem =>
            rw [hi] at h
            replace h : (match dictGet firstItem "timestamp" .null with
                | Except.error e => (Except.error e : Except PyErr (UserSet × Timestamps))
                | Except.ok ts =>
                  if (ts.truthy = true) then
                    Except.ok (usAdd st.1 ⟨username⟩,
                               tsSet st.2 (pyLowerStr username) ts)
                  else Except.ok (usAdd st.1 ⟨username⟩, st.2)) = Except.ok st' := h
            cases hd : dictGet firstItem "timestamp" .null with
            | error e => rw [hd] at h; exact absurd h (by simp)
            | ok ts =>
              rw [hd] at h
              replace h : (if (ts.truthy = true) then
                  Except.ok (usAdd st.1 ⟨username⟩,
                             tsSet st.2 (pyLowerStr username) ts)
                else Except.ok (usAdd st.1 ⟨username⟩, st.2)) = Except.ok st' := h
              cases htt : ts.truthy
              · rw [htt] at h
                simp only [Bool.false_eq_true, if_false] at h
                cases h
                exact hadd
              · rw [htt] at h
                simp only [if_true] at h
                cases h
                exact hadd
  | null => exact absurd h (by simp [followingTsEntryStep, dictGet])
  | bool b => exact absurd h (by simp [followingTsEntryStep, dictGet])
  | num n => exact absurd h (by simp [followingTsEntryStep, dictGet])
  | str s => exact absurd h (by simp [followingTsEntryStep, dictGet])
  | arr elems => exact absurd h (by simp [followingTsEntryStep, dictGet])

theorem parse_followers_stripped {files : List Buffer} {s : UserSet}
    (h : parse_followers files = .ok s) : handlesStripped s := by
  rw [parse_followers_eq_collect] at h
  cases hc : collectFold followersBufferUsers [] files with
  | error e => rw [hc] at h; exact absurd h (by simp [Except.map])
  | ok us =>
    rw [hc] at h
    simp only [Except.map] at h
    cases h
    exact handlesStripped_foldl (fun u hu => absurd hu (List.not_mem_nil u))
      (collectFold_stripped (fun x u hx => followersBufferUsers_stripped hx)
        files [] us (by simp) hc)

theorem followers_parse_fst (files : List Buffer) :
    (parse_followers_with_timestamps files).map Prod.fst = parse_followers files :=
  exceptFold_fst followersTsBufferStep followersBufferStep
    followersTsBufferStep_fst files [] []

theorem parse_followers_ts_stripped {files : List Buffer} {p : UserSet × Timestamps}
    (h : parse_followers_with_timestamps files = .ok p) : handlesStripped p.1 := by
  have hfst := followers_parse_fst files
  rw [h] at hfst
  exact parse_followers_stripped hfst.symm

theorem parse_following_stripped {b : Buffer} {s : UserSet}
    (h : parse_following b = .ok s) : handlesStripped s := by
  cases b with
  | none => cases h; exact fun u hu => absurd hu (List.not_mem_nil u)
  | some data =>
    cases hd : dictGet data "relationships_following" (.arr []) with
    | error e =>
      rw [show parse_following (some data) =
          (match dictGet data "relationships_following" (.arr []) with
           | Except.error e => (Except.error e : Except PyErr UserSet)
           | Except.ok relationships =>
             match relationships with
             | Json.arr entries => exceptFold followingEntryStep [] entries
             | _ => Except.ok []) from rfl, hd] at h
      exact absurd h (by simp)
    | ok rels =>
      rw [show parse_following (some data) =
          (match dictGet data "relationships_following" (.arr []) with
           | Except.error e => (Except.error e : Except PyErr UserSet)
           | Except.ok relationships =>
             match relationships with
             | Json.arr entries => exceptFold followingEntryStep [] entries
             | _ => Except.ok []) from rfl, hd] at h
      cases rels with
      | arr entries =>
        exact exceptFold_preserve handlesStripped followingEntryStep
          (fun st x st' hP hstep => followingEntryStep_stripped hP hstep)
          entries [] s (fun u hu => absurd hu (List.not_mem_nil u)) h
      | null => cases h; exact fun u hu => absurd hu (List.not_mem_nil u)
      | bool c => cases h; exact fun u hu => absurd hu (List.not_mem_nil u)
      | num n => cases h; exact fun u hu => absurd hu (List.not_mem_nil u)
      | str t => cases h; exact fun u hu => absurd hu (List.not_mem_nil u)
      | obj fs => cases h; exact fun u hu => absurd hu (List.not_mem_nil u)

theorem parse_following_ts_stripped {b : Buffer} {p : UserSet × Timestamps}
    (h : parse_following_with_timestamps b = .ok p) : handlesStripped p.1 := by
  cases b with
  | none => cases h; exact fun u hu => absurd hu (List.not_mem_nil u)
  | some data =>
    cases hd : dictGet data "relationships_following" (.arr []) with
    | error e =>
      rw [show parse_following_with_timestamps (some data) =
          (match dictGet data "relationships_following" (.arr []) with
           | Except.error e => (Except.error e : Except PyErr (UserSet × Timestamps))
           | Except.ok relationships =>
             match relationships with
             | Json.arr entries => exceptFold followingTsEntryStep ([], []) entries
             | _ => Except.ok ([], [])) from rfl, hd] at h
      exact absurd h (by simp)
    | ok rels =>
      rw [show parse_following_with_timestamps (some data) =
          (match dictGet data "relationships_following" (.arr []) with
           | Except.error e => (Except.error e : Except PyErr (UserSet × Timestamps))
           | Except.ok relationships =>
             match relationships with
             | Json.arr entries => exceptFold followingTsEntryStep ([], []) entries
             | _ => Except.ok ([], [])) from rfl, hd] at h
      cases rels with
      | arr entries =>
        exact exceptFold_preserve (fun st => handlesStripped st.1) followingTsEntryStep
          (fun st x st' hP hstep => followingTsEntryStep_stripped hP hstep)
          entries ([], []) p (fun u hu => absurd hu (List.not_mem_nil u)) h
      | null => cases h; exact fun u hu => absurd hu (List.not_mem_nil u)
      | bool c => cases h; exact fun u hu => absurd hu (List.not_mem_nil u)
      | num n => cases h; exact fun u hu => absurd hu (List.not_mem_nil u)
      | str t => cases h; exact fun u hu => absurd hu (List.not_mem_nil u)
      | obj fs => cases h; exact fun u hu => absurd hu (List.not_mem_nil u)

/-- C9 counterexample: a well-formed buffer whose item value is the
whitespace-only string " " passes the truthiness guard, so the parser
returns a set whose single member has the EMPTY handle — refuting the
claim that no returned member has an empty handle. -/
theorem parser_empty_handle_counterexample :
    parse_followers
        [some (.arr [.obj [("string_list_data", .arr [.obj [("value", .str " ")]])]])] =
      .ok [⟨""⟩] := rfl

/-- C9 amended: every member of an identity set returned by any of the
four parsers has a handle of the form `v.strip()` for some raw string
value `v` (the value is non-empty by the truthiness guard, but a
whitespace-only value yields an empty handle, so non-emptiness after
trimming does not hold). -/
theorem parser_handles_stripped :
    (∀ (files : List Buffer) (s : UserSet),
      parse_followers files = .ok s → handlesStripped s) ∧
    (∀ (files : List Buffer) (p : UserSet × Timestamps),
      parse_followers_with_timestamps files = .ok p → handlesStripped p.1) ∧
    (∀ (b : Buffer) (s : UserSet),
      parse_following b = .ok s → handlesStripped s) ∧
    (∀ (b : Buffer) (p : UserSet × Timestamps),
      parse_following_with_timestamps b = .ok p → handlesStripped p.1) :=
  ⟨fun _ _ h => parse_followers_stripped h,
   fun _ _ h => parse_followers_ts_stripped h,
   fun _ _ h => parse_following_stripped h,
   fun _ _ h => parse_following_ts_stripped h⟩

theorem parser_handles_stripped_witness :
    parse_followers [followersBuffer3] = .ok sampleFollowers ∧
    (⟨"user1"⟩ : InstagramUser) ∈ sampleFollowers ∧
    (∃ v : String, ("user1" : String) = pyStripStr v) :=
  ⟨rfl, by decide,
   parser_handles_stripped.1 [followersBuffer3] sampleFollowers rfl
     ⟨"user1"⟩ (by decide)⟩
